import Mathlib

/-
Verification of ciao_contrib/downloadutils.py.

The module has two functions:

  manual_download(url): runs check_output(['curl', '--silent', '-L', url]);
  on FileNotFoundError it runs check_output(['wget', '--quiet', '-O-', url]);
  if that also raises FileNotFoundError it raises a RuntimeError naming both
  programs; on success it wraps the captured output bytes in an in-memory
  byte buffer (BytesIO).

  retrieve_url(url, timeout=None): calls urllib.request.urlopen(url) when
  timeout is None, else urlopen(url, timeout=timeout), and returns the
  response object directly.  It catches urllib.error.URLError only; if
  str(ue.reason) contains 'unknown url type: https' or
  'CERTIFICATE_VERIFY_FAILED' it returns manual_download(url), otherwise
  it re-raises the original exception.

The embedding makes the two external effects explicit as oracle functions in
an environment (urlopen and check_output), and each embedded function returns
its result together with the trace of external calls it made, so that claims
about which call is performed and with which arguments can be stated.
-/

namespace DownloadUtils

/-- How the timeout argument is passed to urlopen: either omitted
(`urlopen(url)`) or given explicitly (`urlopen(url, timeout=t)`). -/
inductive TimeoutSpec where
  | absent : TimeoutSpec
  | given : Int → TimeoutSpec
deriving DecidableEq, Repr

/-- The `reason` attribute of a urllib.error.URLError: either a plain string,
or a non-string object; in either case the field carries the text that
`str(ue.reason)` produces. -/
inductive Reason where
  | str : String → Reason
  | obj : String → Reason
deriving DecidableEq, Repr

/-- Python `str(ue.reason)` (line 136 of the source). -/
def Reason.strOf : Reason → String
  | .str s => s
  | .obj s => s

/-- The Python exceptions relevant to this module. -/
inductive PyError where
  | urlError : Reason → PyError
  | fileNotFound : String → PyError
  | calledProcessError : Int → String → PyError
  | runtimeError : String → PyError
  | valueError : String → PyError
deriving DecidableEq, Repr

/-- Whether an exception is a FileNotFoundError (the only class the
`except` clauses in manual_download match). -/
def PyError.isFileNotFound : PyError → Bool
  | .fileNotFound _ => true
  | _ => false

/-- Whether an exception is a urllib.error.URLError (the only class the
`except` clause in retrieve_url matches). -/
def PyError.isUrlError : PyError → Bool
  | .urlError _ => true
  | _ => false

/-- Outcome of a urlopen call: a native response object whose body bytes are
read lazily from the connection, or a raised exception. -/
inductive UrlopenResult where
  | success : List Nat → UrlopenResult
  | raised : PyError → UrlopenResult
deriving DecidableEq, Repr

/-- Outcome of a subprocess.check_output call: the captured stdout bytes,
or a raised exception. -/
inductive ProgOutcome where
  | output : List Nat → ProgOutcome
  | raised : PyError → ProgOutcome
deriving DecidableEq, Repr

/-- A response value as seen by the caller.  `native body` is the object
returned by urlopen (a stream: the body is not read into memory when it is
returned); `buffer data` is a BytesIO over bytes already fully in memory. -/
inductive Response where
  | native : List Nat → Response
  | buffer : List Nat → Response
deriving DecidableEq, Repr

/-- True exactly when the response is an in-memory byte buffer holding the
complete payload (the BytesIO case), false for the lazily-read native
response object. -/
def Response.inMemoryBuffer : Response → Bool
  | .native _ => false
  | .buffer _ => true

/-- An external call made by the module: a urlopen invocation with a given
url and timeout passing mode, or a check_output invocation with an argument
vector. -/
inductive Call where
  | urlopenCall : String → TimeoutSpec → Call
  | execCall : List String → Call
deriving DecidableEq, Repr

/-- Whether a traced call is a urlopen invocation. -/
def Call.isUrlopen : Call → Bool
  | .urlopenCall _ _ => true
  | _ => false

/-- The environment: the behaviour of the two external effects the module
uses.  urlopen is keyed by url and timeout passing mode; check_output by the
full argument vector. -/
structure Env where
  urlopen : String → TimeoutSpec → UrlopenResult
  check_output : List String → ProgOutcome

/-- Whether the character list starts with `sub`. -/
def charsStartWith : List Char → List Char → Bool
  | [], _ => true
  | _ :: _, [] => false
  | a :: as, b :: bs => a == b && charsStartWith as bs

/-- Whether `sub` occurs as a contiguous run inside the character list. -/
def charsContain (sub : List Char) : List Char → Bool
  | [] => charsStartWith sub []
  | c :: rest => charsStartWith sub (c :: rest) || charsContain sub rest

/-- Python `s.find(sub) != -1`: whether `sub` occurs as a substring of `s`. -/
def strContains (s sub : String) : Bool :=
  charsContain sub.toList s.toList

/-- Argument vector of the first external call (line 71 of the source):
curl --silent -L url. -/
def curlArgs (url : String) : List String :=
  ["curl", "--silent", "-L", url]

/-- Argument vector of the second external call (line 79 of the source):
wget --quiet -O- url. -/
def wgetArgs (url : String) : List String :=
  ["wget", "--quiet", "-O-", url]

/-- The error message built at lines 87-90 of the source when neither curl
nor wget can be called. -/
def manualErrMsg (url : String) : String :=
  "Unable to access the URL " ++ url ++ ".\n" ++
    "Please install curl or wget (and if you " ++
    "continue to see this message, contact the " ++
    "CXC HelpDesk)."

/-- Embedding of manual_download (lines 48-93 of the source).  Runs curl; on
FileNotFoundError runs wget; on a second FileNotFoundError raises the
RuntimeError; any other exception from either call propagates unchanged.
Successful output is wrapped in an in-memory byte buffer (BytesIO). -/
def manual_download (env : Env) (url : String) :
    Except PyError Response × List Call :=
  match env.check_output (curlArgs url) with
  | .output rsp => (.ok (.buffer rsp), [.execCall (curlArgs url)])
  | .raised exc1 =>
    match exc1 with
    | .fileNotFound _ =>
      match env.check_output (wgetArgs url) with
      | .output rsp =>
          (.ok (.buffer rsp),
           [.execCall (curlArgs url), .execCall (wgetArgs url)])
      | .raised exc2 =>
        match exc2 with
        | .fileNotFound _ =>
            (.error (.runtimeError (manualErrMsg url)),
             [.execCall (curlArgs url), .execCall (wgetArgs url)])
        | e =>
            (.error e,
             [.execCall (curlArgs url), .execCall (wgetArgs url)])
    | e => (.error e, [.execCall (curlArgs url)])

/-- The fallback test at lines 137-138 of the source, applied to
str(ue.reason): the text contains 'unknown url type: https' or
'CERTIFICATE_VERIFY_FAILED'. -/
def sslTrigger (reason : String) : Bool :=
  strContains reason "unknown url type: https" ||
    strContains reason "CERTIFICATE_VERIFY_FAILED"

/-- How retrieve_url passes its timeout parameter to urlopen (lines 121-124
of the source): `timeout is None` omits the argument, otherwise the value is
passed as the timeout keyword. -/
def timeoutArg : Option Int → TimeoutSpec
  | none => .absent
  | some t => .given t

/-- Embedding of retrieve_url (lines 96-147 of the source).  Calls urlopen
(with or without the timeout argument); on success returns the native
response object directly.  A raised URLError whose str(reason) passes
sslTrigger is answered by manual_download(url); any other URLError is
re-raised unchanged; exceptions of other classes are not caught at all. -/
def retrieve_url (env : Env) (url : String) (timeout : Option Int := none) :
    Except PyError Response × List Call :=
  let ucall := Call.urlopenCall url (timeoutArg timeout)
  match env.urlopen url (timeoutArg timeout) with
  | .success body => (.ok (.native body), [ucall])
  | .raised e =>
    match e with
    | .urlError ue =>
      if sslTrigger ue.strOf then
        let md := manual_download env url
        (md.1, ucall :: md.2)
      else
        (.error (.urlError ue), [ucall])
    | e => (.error e, [ucall])

/-! Helper lemmas. -/

/-- Substring containment is preserved when a list is prepended. -/
theorem charsContain_append_right (sub ys xs : List Char)
    (h : charsContain sub ys = true) : charsContain sub (xs ++ ys) = true := by
  induction xs with
  | nil => simpa using h
  | cons a as ih =>
    simp [charsContain, Bool.or_eq_true]
    right
    exact ih

/-- A substring found in the fixed suffix of the manual-download error
message occurs in the whole message, whatever the url. -/
theorem manualErrMsg_suffix_contains (url sub : String)
    (h : charsContain sub.toList (String.toList (".\n" ++
        "Please install curl or wget (and if you " ++
        "continue to see this message, contact the " ++
        "CXC HelpDesk).")) = true) :
    strContains (manualErrMsg url) sub = true := by
  have h2 := charsContain_append_right sub.toList _
    (String.toList ("Unable to access the URL " ++ url)) h
  simp [strContains, manualErrMsg, String.toList] at h2 ⊢
  simpa [List.append_assoc] using h2

/-- Every call manual_download makes is a check_output invocation with the
curl argument vector or with the wget argument vector for its url. -/
theorem manual_download_calls (env : Env) (url : String) :
    ∀ c ∈ (manual_download env url).2,
      c = .execCall (curlArgs url) ∨ c = .execCall (wgetArgs url) := by
  intro c hc
  unfold manual_download at hc
  rcases h1 : env.check_output (curlArgs url) with r1 | e1 <;> rw [h1] at hc
  · simp at hc
    tauto
  · cases e1 with
    | fileNotFound m =>
      rcases h2 : env.check_output (wgetArgs url) with r2 | e2 <;> rw [h2] at hc
      · simp at hc
        tauto
      · cases e2 <;> simp at hc <;> tauto
    | urlError r =>
      simp at hc
      tauto
    | calledProcessError n m =>
      simp at hc
      tauto
    | runtimeError m =>
      simp at hc
      tauto
    | valueError m =>
      simp at hc
      tauto

/-- manual_download never invokes urlopen. -/
theorem manual_download_no_urlopen (env : Env) (url : String) :
    ((manual_download env url).2.filter Call.isUrlopen) = [] := by
  unfold manual_download
  rcases env.check_output (curlArgs url) with r1 | e1
  · simp [List.filter, Call.isUrlopen]
  · cases e1 with
    | fileNotFound m =>
      rcases env.check_output (wgetArgs url) with r2 | e2
      · simp [List.filter, Call.isUrlopen]
      · cases e2 <;> simp [List.filter, Call.isUrlopen]
    | urlError r => simp [List.filter, Call.isUrlopen]
    | calledProcessError n m => simp [List.filter, Call.isUrlopen]
    | runtimeError m => simp [List.filter, Call.isUrlopen]
    | valueError m => simp [List.filter, Call.isUrlopen]

/-! Concrete environments used to instantiate the theorems. -/

/-- Environment whose urlopen raises the no-SSL-support URLError and whose
external programs both produce output. -/
def envSSL : Env where
  urlopen := fun _ _ => .raised (.urlError (.str "urlopen error unknown url type: https"))
  check_output := fun _ => .output [1, 2, 3]

/-- Environment whose urlopen raises a connection-refused URLError. -/
def envRefused : Env where
  urlopen := fun _ _ => .raised (.urlError (.str "urlopen error [Errno 111] Connection refused"))
  check_output := fun _ => .output []

/-- Environment in which curl is missing but wget works. -/
def envNoCurl : Env where
  urlopen := fun _ _ => .success []
  check_output := fun args =>
    if args.head? = some "curl" then .raised (.fileNotFound "No such file or directory: curl")
    else .output [104, 105]

/-- Environment in which curl and wget are both missing. -/
def envNoTools : Env where
  urlopen := fun _ _ => .success []
  check_output := fun args =>
    if args.head? = some "curl" then .raised (.fileNotFound "no curl")
    else .raised (.fileNotFound "no wget")

/-- Environment in which curl exists but exits with a non-zero status. -/
def envCurlFails : Env where
  urlopen := fun _ _ => .success []
  check_output := fun _ => .raised (.calledProcessError 6 "Could not resolve host")

/-- Environment whose urlopen raises a URLError whose reason is a non-string
object; the text is its str() form. -/
def envObjSSL : Env where
  urlopen := fun _ _ =>
    .raised (.urlError (.obj "urlopen error [SSL: CERTIFICATE_VERIFY_FAILED] certificate verify failed (_ssl.c:719)"))
  check_output := fun _ => .output [42]

/-- Environment whose urlopen raises a ValueError whose message happens to
contain a trigger substring. -/
def envValueErr : Env where
  urlopen := fun _ _ => .raised (.valueError "unknown url type: https")
  check_output := fun _ => .output [0]

/-- Environment whose urlopen succeeds with a two-byte body. -/
def envNativeOk : Env where
  urlopen := fun _ _ => .success [104, 105]
  check_output := fun _ => .output []

/-! Claim theorems. -/

/-- C1: when urlopen raises a URLError whose str(reason) contains
'unknown url type: https' or 'CERTIFICATE_VERIFY_FAILED', retrieve_url does
not raise it but returns manual_download's result for the same url: its
outcome equals manual_download's outcome and its trace is the urlopen call
followed exactly by manual_download's calls. -/
theorem retrieve_url_ssl_fallback (env : Env) (url : String) (t : Option Int)
    (ue : Reason)
    (h : env.urlopen url (timeoutArg t) = .raised (.urlError ue))
    (htrig : sslTrigger ue.strOf = true) :
    (retrieve_url env url t).1 = (manual_download env url).1 ∧
    (retrieve_url env url t).2 =
      Call.urlopenCall url (timeoutArg t) :: (manual_download env url).2 := by
  constructor <;> simp [retrieve_url, h, htrig]

/-- Witness for C1 at a concrete environment and url. -/
theorem retrieve_url_ssl_fallback_witness :
    (retrieve_url envSSL "https://example.org" none).1 =
      (manual_download envSSL "https://example.org").1 ∧
    (retrieve_url envSSL "https://example.org" none).2 =
      Call.urlopenCall "https://example.org" (timeoutArg none) ::
        (manual_download envSSL "https://example.org").2 :=
  retrieve_url_ssl_fallback envSSL "https://example.org" none
    (.str "urlopen error unknown url type: https") rfl (by decide)

/-- C2: when urlopen raises a URLError whose str(reason) contains neither
trigger substring, retrieve_url re-raises exactly that URLError with the
same reason, and its trace holds only the urlopen call, so manual_download
is never invoked. -/
theorem retrieve_url_reraises_other_urlerror (env : Env) (url : String)
    (t : Option Int) (ue : Reason)
    (h : env.urlopen url (timeoutArg t) = .raised (.urlError ue))
    (htrig : sslTrigger ue.strOf = false) :
    retrieve_url env url t =
      (.error (.urlError ue), [.urlopenCall url (timeoutArg t)]) := by
  simp [retrieve_url, h, htrig]

/-- Witness for C2 with a connection-refused reason. -/
theorem retrieve_url_reraises_other_urlerror_witness :
    retrieve_url envRefused "http://example.org" (some 30) =
      (.error (.urlError (.str "urlopen error [Errno 111] Connection refused")),
       [.urlopenCall "http://example.org" (timeoutArg (some 30))]) :=
  retrieve_url_reraises_other_urlerror envRefused "http://example.org" (some 30)
    (.str "urlopen error [Errno 111] Connection refused") rfl (by decide)

/-- C3: when the curl invocation raises FileNotFoundError, manual_download
invokes wget with the same url (wget --quiet -O- url) and, when that call
succeeds, returns its captured standard output wrapped in a byte buffer. -/
theorem manual_download_wget_fallback (env : Env) (url : String)
    (msg : String) (rsp : List Nat)
    (hc : env.check_output (curlArgs url) = .raised (.fileNotFound msg))
    (hw : env.check_output (wgetArgs url) = .output rsp) :
    manual_download env url =
      (.ok (.buffer rsp),
       [.execCall (curlArgs url), .execCall (wgetArgs url)]) := by
  simp [manual_download, hc, hw]

/-- Witness for C3 in an environment lacking curl. -/
theorem manual_download_wget_fallback_witness :
    manual_download envNoCurl "http://example.org" =
      (.ok (.buffer [104, 105]),
       [.execCall (curlArgs "http://example.org"),
        .execCall (wgetArgs "http://example.org")]) :=
  manual_download_wget_fallback envNoCurl "http://example.org"
    "No such file or directory: curl" [104, 105] (by decide) (by decide)

/-- C4: when curl and wget both raise FileNotFoundError, manual_download
raises a single RuntimeError whose message names curl and wget and asks the
user to install one of them, and neither raw FileNotFoundError is raised. -/
theorem manual_download_both_missing (env : Env) (url : String)
    (m1 m2 : String)
    (hc : env.check_output (curlArgs url) = .raised (.fileNotFound m1))
    (hw : env.check_output (wgetArgs url) = .raised (.fileNotFound m2)) :
    manual_download env url =
      (.error (.runtimeError (manualErrMsg url)),
       [.execCall (curlArgs url), .execCall (wgetArgs url)]) ∧
    strContains (manualErrMsg url) "curl" = true ∧
    strContains (manualErrMsg url) "wget" = true ∧
    strContains (manualErrMsg url) "Please install curl or wget" = true ∧
    (manual_download env url).1 ≠ .error (.fileNotFound m1) ∧
    (manual_download env url).1 ≠ .error (.fileNotFound m2) := by
  have hmd : manual_download env url =
      (.error (.runtimeError (manualErrMsg url)),
       [.execCall (curlArgs url), .execCall (wgetArgs url)]) := by
    simp [manual_download, hc, hw]
  refine ⟨hmd, ?_, ?_, ?_, ?_, ?_⟩
  · exact manualErrMsg_suffix_contains url "curl" (by decide)
  · exact manualErrMsg_suffix_contains url "wget" (by decide)
  · exact manualErrMsg_suffix_contains url "Please install curl or wget" (by decide)
  · rw [hmd]
    simp
  · rw [hmd]
    simp

/-- Witness for C4 in an environment lacking both programs. -/
theorem manual_download_both_missing_witness :
    manual_download envNoTools "http://example.org" =
      (.error (.runtimeError (manualErrMsg "http://example.org")),
       [.execCall (curlArgs "http://example.org"),
        .execCall (wgetArgs "http://example.org")]) ∧
    strContains (manualErrMsg "http://example.org") "curl" = true ∧
    strContains (manualErrMsg "http://example.org") "wget" = true ∧
    strContains (manualErrMsg "http://example.org") "Please install curl or wget" = true ∧
    (manual_download envNoTools "http://example.org").1 ≠
      .error (.fileNotFound "no curl") ∧
    (manual_download envNoTools "http://example.org").1 ≠
      .error (.fileNotFound "no wget") :=
  manual_download_both_missing envNoTools "http://example.org"
    "no curl" "no wget" (by decide) (by decide)

/-- C5: when an external program is found but its execution fails (any
raised exception other than FileNotFoundError, e.g. a CalledProcessError
for a non-zero exit status), manual_download propagates exactly that
exception, unwrapped, and attempts no further fallback step: after a curl
failure of this kind wget is never invoked. -/
theorem manual_download_propagates_tool_failure (e : PyError)
    (he : e.isFileNotFound = false) :
    (∀ (env : Env) (url : String),
        env.check_output (curlArgs url) = .raised e →
        manual_download env url = (.error e, [.execCall (curlArgs url)])) ∧
    (∀ (env : Env) (url msg : String),
        env.check_output (curlArgs url) = .raised (.fileNotFound msg) →
        env.check_output (wgetArgs url) = .raised e →
        manual_download env url =
          (.error e, [.execCall (curlArgs url), .execCall (wgetArgs url)])) := by
  constructor
  · intro env url hc
    cases e <;> simp [PyError.isFileNotFound] at he <;> simp [manual_download, hc]
  · intro env url msg hc hw
    cases e <;> simp [PyError.isFileNotFound] at he <;> simp [manual_download, hc, hw]

/-- Witness for C5: a curl that exits non-zero is propagated and wget is
not attempted. -/
theorem manual_download_propagates_tool_failure_witness :
    manual_download envCurlFails "http://example.org" =
      (.error (.calledProcessError 6 "Could not resolve host"),
       [.execCall (curlArgs "http://example.org")]) :=
  (manual_download_propagates_tool_failure
      (.calledProcessError 6 "Could not resolve host") (by decide)).1
    envCurlFails "http://example.org" rfl

/-- The only urlopen invocation retrieve_url makes carries its url and its
timeout passing mode, on every path. -/
theorem retrieve_url_urlopen_calls (env : Env) (url : String) (t : Option Int) :
    ((retrieve_url env url t).2.filter Call.isUrlopen) =
      [.urlopenCall url (timeoutArg t)] := by
  unfold retrieve_url
  rcases env.urlopen url (timeoutArg t) with body | e
  · simp [List.filter, Call.isUrlopen]
  · cases e with
    | urlError ue =>
      by_cases htrig : sslTrigger ue.strOf = true
      · simp [htrig, List.filter, Call.isUrlopen, manual_download_no_urlopen env url]
      · simp [htrig, List.filter, Call.isUrlopen]
    | fileNotFound m => simp [List.filter, Call.isUrlopen]
    | calledProcessError n m => simp [List.filter, Call.isUrlopen]
    | runtimeError m => simp [List.filter, Call.isUrlopen]
    | valueError m => simp [List.filter, Call.isUrlopen]

/-- C6: with a non-None timeout, the one urlopen invocation retrieve_url
makes passes exactly that timeout value; with timeout omitted (None), the
one urlopen invocation passes no timeout argument at all. -/
theorem retrieve_url_timeout_passing (env : Env) (url : String) :
    (∀ t : Int, ((retrieve_url env url (some t)).2.filter Call.isUrlopen) =
        [.urlopenCall url (.given t)]) ∧
    ((retrieve_url env url none).2.filter Call.isUrlopen) =
      [.urlopenCall url .absent] := by
  constructor
  · intro t
    simpa [timeoutArg] using retrieve_url_urlopen_calls env url (some t)
  · simpa [timeoutArg] using retrieve_url_urlopen_calls env url none

/-- Every successful manual_download result is an in-memory byte buffer. -/
theorem manual_download_ok_buffer (env : Env) (url : String) :
    ∀ r : Response, (manual_download env url).1 = .ok r →
      r.inMemoryBuffer = true := by
  intro r h
  unfold manual_download at h
  rcases h1 : env.check_output (curlArgs url) with r1 | e1 <;> rw [h1] at h
  · simp at h
    subst h
    rfl
  · cases e1 with
    | fileNotFound m =>
      rcases h2 : env.check_output (wgetArgs url) with r2 | e2 <;> rw [h2] at h
      · simp at h
        subst h
        rfl
      · cases e2 <;> simp at h
    | urlError r => simp at h
    | calledProcessError n m => simp at h
    | runtimeError m => simp at h
    | valueError m => simp at h

/-- C7 counterexample: on the native success path retrieve_url returns the
urlopen response object itself, which is not an in-memory byte buffer (the
source returns urlopen's stream directly, without reading it; only the
manual path wraps already-captured bytes in BytesIO). -/
theorem response_not_preread_counterexample :
    (retrieve_url envNativeOk "http://example.org" none).1 =
      .ok (.native [104, 105]) ∧
    Response.inMemoryBuffer (.native [104, 105]) = false := by
  constructor <;> rfl

/-- C7 amended: every Response produced by manual_download is an in-memory
byte buffer holding the complete captured payload, while on the native
success path retrieve_url returns the native fetch's response object
unchanged — a stream, not a pre-read buffer. -/
theorem response_memory_amended (env : Env) (url : String) (t : Option Int) :
    (∀ r : Response, (manual_download env url).1 = .ok r →
        r.inMemoryBuffer = true) ∧
    (∀ body, env.urlopen url (timeoutArg t) = .success body →
        (retrieve_url env url t).1 = .ok (.native body)) := by
  constructor
  · exact manual_download_ok_buffer env url
  · intro body h
    simp [retrieve_url, h]

/-- Witness for C7 amended at concrete environments. -/
theorem response_memory_amended_witness :
    Response.inMemoryBuffer (.buffer [104, 105]) = true ∧
    (retrieve_url envNativeOk "http://example.org" none).1 =
      .ok (.native [104, 105]) :=
  ⟨(response_memory_amended envNoCurl "http://example.org" none).1
      (.buffer [104, 105]) rfl,
   (response_memory_amended envNativeOk "http://example.org" none).2
      [104, 105] rfl⟩

/-- C8: on the fallback path retrieve_url hands over only the url it was
called with: its result and remaining trace are exactly manual_download's
for that url, every external command invoked mentions just the url-derived
argument vectors, and the outcome is the same for every timeout value. -/
theorem retrieve_url_fallback_url_only (env : Env) (url : String)
    (t t2 : Option Int) (ue ue2 : Reason)
    (h : env.urlopen url (timeoutArg t) = .raised (.urlError ue))
    (htrig : sslTrigger ue.strOf = true)
    (h2 : env.urlopen url (timeoutArg t2) = .raised (.urlError ue2))
    (htrig2 : sslTrigger ue2.strOf = true) :
    (retrieve_url env url t).1 = (manual_download env url).1 ∧
    (retrieve_url env url t).2.tail = (manual_download env url).2 ∧
    (∀ args, Call.execCall args ∈ (retrieve_url env url t).2 →
        args = curlArgs url ∨ args = wgetArgs url) ∧
    (retrieve_url env url t).1 = (retrieve_url env url t2).1 := by
  have e1 : retrieve_url env url t =
      ((manual_download env url).1,
       Call.urlopenCall url (timeoutArg t) :: (manual_download env url).2) := by
    simp [retrieve_url, h, htrig]
  have e2 : retrieve_url env url t2 =
      ((manual_download env url).1,
       Call.urlopenCall url (timeoutArg t2) :: (manual_download env url).2) := by
    simp [retrieve_url, h2, htrig2]
  refine ⟨by rw [e1], by rw [e1]; rfl, ?_, by rw [e1, e2]⟩
  intro args hmem
  rw [e1] at hmem
  simp at hmem
  have hcalls := manual_download_calls env url _ hmem
  simpa using hcalls

/-- Witness for C8: with and without a timeout the fallback outcome is the
same and the trace after the urlopen call is manual_download's. -/
theorem retrieve_url_fallback_url_only_witness :
    (retrieve_url envSSL "https://example.org" (some 5)).1 =
      (manual_download envSSL "https://example.org").1 ∧
    (retrieve_url envSSL "https://example.org" (some 5)).2.tail =
      (manual_download envSSL "https://example.org").2 ∧
    (retrieve_url envSSL "https://example.org" (some 5)).1 =
      (retrieve_url envSSL "https://example.org" none).1 := by
  obtain ⟨a, b, c, d⟩ := retrieve_url_fallback_url_only envSSL
    "https://example.org" (some 5) none
    (.str "urlopen error unknown url type: https")
    (.str "urlopen error unknown url type: https")
    rfl (by decide) rfl (by decide)
  exact ⟨a, b, d⟩

/-- C9: the fallback decision is computed over str(ue.reason), so a
non-string reason object whose string form contains a trigger substring
also causes the fallback, and the substring match is case-sensitive: texts
differing from the triggers only in letter case do not trigger it. -/
theorem fallback_uses_str_of_reason_case_sensitive :
    (∀ (env : Env) (url : String) (t : Option Int) (s : String),
        env.urlopen url (timeoutArg t) = .raised (.urlError (.obj s)) →
        sslTrigger s = true →
        (retrieve_url env url t).1 = (manual_download env url).1) ∧
    sslTrigger "urlopen error [SSL: CERTIFICATE_VERIFY_FAILED] certificate verify failed (_ssl.c:719)" = true ∧
    sslTrigger "urlopen error [SSL: certificate_verify_failed] certificate verify failed (_ssl.c:719)" = false ∧
    sslTrigger "unknown url type: HTTPS" = false ∧
    sslTrigger "Unknown url type: https" = false := by
  refine ⟨?_, by decide, by decide, by decide, by decide⟩
  intro env url t s h htrig
  simp [retrieve_url, h, Reason.strOf, htrig]

/-- Witness for C9 with an object-valued reason. -/
theorem fallback_uses_str_of_reason_case_sensitive_witness :
    (retrieve_url envObjSSL "https://example.org" none).1 =
      (manual_download envObjSSL "https://example.org").1 :=
  (fallback_uses_str_of_reason_case_sensitive).1 envObjSSL
    "https://example.org" none
    "urlopen error [SSL: CERTIFICATE_VERIFY_FAILED] certificate verify failed (_ssl.c:719)"
    rfl (by decide)

/-- C10: retrieve_url catches only URLError; any other exception raised by
the urlopen call propagates to the caller unchanged and the manual
downloader is never invoked, whatever the exception's message says. -/
theorem retrieve_url_catches_only_urlerror (env : Env) (url : String)
    (t : Option Int) (e : PyError) (he : e.isUrlError = false)
    (h : env.urlopen url (timeoutArg t) = .raised e) :
    retrieve_url env url t =
      (.error e, [.urlopenCall url (timeoutArg t)]) := by
  cases e with
  | urlError r => simp [PyError.isUrlError] at he
  | fileNotFound m => simp [retrieve_url, h]
  | calledProcessError n m => simp [retrieve_url, h]
  | runtimeError m => simp [retrieve_url, h]
  | valueError m => simp [retrieve_url, h]

/-- Witness for C10: a ValueError whose message contains a trigger
substring still propagates without any fallback. -/
theorem retrieve_url_catches_only_urlerror_witness :
    retrieve_url envValueErr "https://example.org" none =
      (.error (.valueError "unknown url type: https"),
       [.urlopenCall "https://example.org" (timeoutArg none)]) :=
  retrieve_url_catches_only_urlerror envValueErr "https://example.org" none
    (.valueError "unknown url type: https") (by decide) rfl

end DownloadUtils
